import Mathlib

/-!
Verification of the resumable chunked-processing pipeline of `mcp-moat`
(`src/step02_transcript_summarizer.py` and `src/step05_generate_linkedin_post.py`)
against its natural-language specification.

Python text is modelled as `List Char` (`Str`).  Python string methods used by
the scripts (`split`, `rsplit`, `strip`, `lower`, `endswith`, `in`,
`os.path.splitext`) are modelled by executable functions below, faithful to
CPython semantics on the inputs the scripts produce (non-empty separators,
ASCII whitespace).  The remote HTTP endpoint (`requests.post`) is an external
collaborator; each call is modelled by a `CallOutcome` drawn from an oracle
`Nat → CallOutcome` indexed by the global call counter.  `time.sleep` is
modelled by recording `SleepEvent`s.  Filesystem state is the list of output
file names present (file contents are irrelevant to the selection/skip logic
under study; a write is recorded by its target name).
-/

/-- Python strings, modelled as lists of characters. -/
abbrev Str := List Char

/-- Character list of a Lean string literal. -/
def str (s : String) : Str := s.data

/-- Fuel-indexed worker for `splitOnL`.  With `fuel ≥ s.length` it computes
CPython `s.split(sep)` for non-empty `sep`; each step consumes at least one
character, so the fuel branch is unreachable at `fuel = s.length`. -/
def splitOnAuxL (sep : Str) : Nat → Str → List Str
  | _, [] => [[]]
  | 0, s => [s]
  | fuel + 1, a :: rest =>
    if sep.isPrefixOf (a :: rest) && !sep.isEmpty then
      [] :: splitOnAuxL sep fuel (rest.drop (sep.length - 1))
    else
      match splitOnAuxL sep fuel rest with
      | [] => [[a]]
      | h :: t => (a :: h) :: t

/-- CPython `s.split(sep)` for a non-empty separator `sep` (the scripts never
split on an empty separator: CPython raises `ValueError` there, modelled as
the `[s]` branch, which is never exercised). -/
def splitOnL (sep s : Str) : List Str :=
  if sep.isEmpty then [s] else splitOnAuxL sep s.length s

/-- CPython `t in s` (substring containment) for non-empty `t`:
`s.split(t)` has more than one part exactly when `t` occurs in `s`.
All call sites in the scripts pass non-empty literals for `t`. -/
def py_contains (s t : Str) : Bool := decide (1 < (splitOnL t s).length)

/-- CPython `s.strip()` (the scripts only strip ASCII whitespace). -/
def pyStrip (s : Str) : Str :=
  ((s.dropWhile Char.isWhitespace).reverse.dropWhile Char.isWhitespace).reverse

/-- CPython `s.lower()`. -/
def pyLower (s : Str) : Str := s.map Char.toLower

/-- CPython `s.endswith(t)`. -/
def py_endswith (s t : Str) : Bool := t.isSuffixOf s

/-- CPython `s.rsplit(sep, 1)[0]`: everything before the last occurrence of
`sep`, or all of `s` when `sep` does not occur.
(`src/step02_transcript_summarizer.py` line 77.) -/
def py_rsplit1_head (s sep : Str) : Str :=
  let parts := splitOnL sep s
  if 1 < parts.length then List.intercalate sep parts.dropLast else s

/-- CPython `os.path.splitext(f)[0]` for ordinary file names whose extension
dot is not the leading character: the part before the last dot, or all of `f`
when `f` has no dot. -/
def splitext_base (f : Str) : Str :=
  let parts := splitOnL (str ".") f
  if 1 < parts.length then List.intercalate (str ".") parts.dropLast else f

/-- Decimal rendering of a natural number, as CPython `str(i)` / f-string
interpolation of a non-negative int. -/
def natToStr (n : Nat) : Str := Nat.toDigits 10 n

/-! ## Chunk Splitter

`TranscriptSummarizer.chunk_text` (`src/step02_transcript_summarizer.py`
lines 101-103):

    return [text[i:i + chunk_size] for i in range(0, len(text), chunk_size)]

For `M > 0`, `range(0, n, M)` is `[0, M, 2M, …]` below `n`, i.e. the first
`⌈n / M⌉ = (n + M - 1) / M` multiples of `M`, and `text[i:i+M]` is
`(text.drop i).take M`. -/

/-- `TranscriptSummarizer.chunk_text`: fixed-size positional slices. -/
def chunk_text (t : Str) (M : Nat) : List Str :=
  (List.range ((t.length + M - 1) / M)).map (fun k => (t.drop (k * M)).take M)

/-- Ceil-division successor step used when peeling the first chunk. -/
theorem ceil_div_succ (M n : Nat) (hM : 0 < M) (hn : 0 < n) :
    (n + M - 1) / M = (n - M + M - 1) / M + 1 := by
  have h1 : n + M - 1 = (n - 1) + M := by omega
  rw [h1, Nat.add_div_right _ hM]
  rcases le_or_lt n M with h | h
  · have h2 : n - M = 0 := by omega
    have h3 : (n - 1) / M = 0 := Nat.div_eq_of_lt (by omega)
    have h4 : (0 + M - 1) / M = 0 := Nat.div_eq_of_lt (by omega)
    rw [h2, h3, h4]
  · have h2 : n - M + M - 1 = n - 1 := by omega
    rw [h2]

/-- Unfolding: for a non-empty input and positive size, the chunk list is the
first `M`-slice followed by the chunks of the rest. -/
theorem chunk_text_cons (t : Str) (M : Nat) (hM : 0 < M) (ht : t ≠ []) :
    chunk_text t M = t.take M :: chunk_text (t.drop M) M := by
  have hn : 0 < t.length := List.length_pos.mpr ht
  unfold chunk_text
  rw [List.length_drop, ceil_div_succ M t.length hM hn, List.range_succ_eq_map]
  simp only [List.map_cons, List.map_map, Nat.zero_mul, List.drop_zero]
  congr 1
  apply List.map_congr_left
  intro k _
  simp only [Function.comp_apply, List.drop_drop, Nat.succ_mul, Nat.add_comm]

/-- The chunk list of the empty input is empty. -/
theorem chunk_text_nil (M : Nat) : chunk_text [] M = [] := by
  have h : (M - 1) / M = 0 := by
    rcases M with _ | m
    · simp
    · exact Nat.div_eq_of_lt (by omega)
  simp [chunk_text, h]

/-- Concatenating the chunks in order reproduces the input exactly. -/
theorem chunk_text_join (M : Nat) (hM : 0 < M) :
    ∀ n (t : Str), t.length ≤ n → (chunk_text t M).flatten = t := by
  intro n
  induction n with
  | zero =>
    intro t h
    have : t = [] := List.eq_nil_of_length_eq_zero (by omega)
    subst this
    rw [chunk_text_nil]
    rfl
  | succ n ih =>
    intro t h
    rcases t with _ | ⟨a, rest⟩
    · rw [chunk_text_nil]; rfl
    · rw [chunk_text_cons _ _ hM (by simp), List.flatten_cons,
        ih ((a :: rest).drop M) (by simp [List.length_drop] at *; omega),
        List.take_append_drop]

/-- The number of chunks is `⌈length / M⌉`, written `(length + M - 1) / M`. -/
theorem chunk_text_count (t : Str) (M : Nat) :
    (chunk_text t M).length = (t.length + M - 1) / M := by
  simp [chunk_text]

/-- An input of at most `M` characters yields a single chunk, the whole input. -/
theorem chunk_text_small (t : Str) (M : Nat) (hM : 0 < M) (ht : t ≠ [])
    (hle : t.length ≤ M) : chunk_text t M = [t] := by
  rw [chunk_text_cons t M hM ht, List.take_of_length_le hle,
    List.drop_eq_nil_of_le hle, chunk_text_nil]

/-- A chunk index below the chunk count addresses a position inside the text. -/
theorem chunk_index_lt (n M k : Nat) (hM : 0 < M) (hk : k < (n + M - 1) / M) :
    k * M < n := by
  have h2 : (k + 1) * M ≤ n + M - 1 := (Nat.le_div_iff_mul_le hM).mp hk
  have h3 : (k + 1) * M = k * M + M := by ring
  omega

/-- A chunk index other than the last leaves at least `M` characters. -/
theorem chunk_index_full (n M i : Nat) (hM : 0 < M) (hi : i + 1 < (n + M - 1) / M) :
    i * M + M ≤ n := by
  have h2 : (i + 2) * M ≤ n + M - 1 := (Nat.le_div_iff_mul_le hM).mp hi
  have h3 : (i + 2) * M = i * M + M + M := by ring
  omega

/-- C9: Implicit segment-size shape: every segment produced by the Chunk
Splitter has length at most `M`, every segment except possibly the last has
length exactly `M`, and when the input is non-empty no produced segment is the
empty string. -/
theorem chunk_text_shape (t : Str) (M : Nat) (hM : 0 < M) :
    (∀ c ∈ chunk_text t M, c.length ≤ M)
    ∧ (∀ i, ∀ h : i + 1 < (chunk_text t M).length,
        ((chunk_text t M).get ⟨i, Nat.lt_of_succ_lt h⟩).length = M)
    ∧ (t ≠ [] → ∀ c ∈ chunk_text t M, c ≠ []) := by
  refine ⟨?_, ?_, ?_⟩
  · intro c hc
    simp only [chunk_text, List.mem_map, List.mem_range] at hc
    obtain ⟨k, _, rfl⟩ := hc
    simp only [List.length_take]
    exact min_le_left _ _
  · intro i h
    have hcount : (chunk_text t M).length = (t.length + M - 1) / M :=
      chunk_text_count t M
    have hi : i + 1 < (t.length + M - 1) / M := by omega
    have harith := chunk_index_full t.length M i hM hi
    simp only [List.get_eq_getElem, chunk_text, List.getElem_map, List.getElem_range,
      List.length_take, List.length_drop]
    omega
  · intro ht c hc
    simp only [chunk_text, List.mem_map, List.mem_range] at hc
    obtain ⟨k, hk, rfl⟩ := hc
    have harith := chunk_index_lt t.length M k hM hk
    have hlen : ((t.drop (k * M)).take M).length = min M (t.length - k * M) := by
      simp [List.length_take, List.length_drop]
    intro hnil
    rw [hnil] at hlen
    simp only [List.length_nil] at hlen
    omega

/-- C9 witness: the shape properties at the concrete input "hello", M = 2. -/
theorem chunk_text_shape_witness :
    0 < 2 ∧ ((∀ c ∈ chunk_text (str "hello") 2, c.length ≤ 2)
    ∧ (∀ i, ∀ h : i + 1 < (chunk_text (str "hello") 2).length,
        ((chunk_text (str "hello") 2).get ⟨i, Nat.lt_of_succ_lt h⟩).length = 2)
    ∧ (str "hello" ≠ [] → ∀ c ∈ chunk_text (str "hello") 2, c ≠ [])) :=
  ⟨by decide, chunk_text_shape (str "hello") 2 (by decide)⟩

/-- C3: Splitter coverage: concatenating the output segments in order
reproduces the input exactly, the number of segments is
`ceil(len / M) = (len + M - 1) / M`, an empty input yields zero segments, and
a non-empty input of at most `M` characters yields exactly the one segment
equal to the whole input. -/
theorem chunk_text_coverage (t : Str) (M : Nat) (hM : 0 < M) :
    (chunk_text t M).flatten = t
    ∧ (chunk_text t M).length = (t.length + M - 1) / M
    ∧ (t = [] → chunk_text t M = [])
    ∧ (t ≠ [] → t.length ≤ M → chunk_text t M = [t]) := by
  refine ⟨chunk_text_join M hM t.length t le_rfl, chunk_text_count t M, ?_, ?_⟩
  · intro h
    subst h
    exact chunk_text_nil M
  · intro h1 h2
    exact chunk_text_small t M hM h1 h2

/-- C3 witness: coverage at the concrete input "hello", M = 4. -/
theorem chunk_text_coverage_witness :
    0 < 4 ∧ ((chunk_text (str "hello") 4).flatten = str "hello"
    ∧ (chunk_text (str "hello") 4).length = ((str "hello").length + 4 - 1) / 4
    ∧ (str "hello" = [] → chunk_text (str "hello") 4 = [])
    ∧ (str "hello" ≠ [] → (str "hello").length ≤ 4 →
        chunk_text (str "hello") 4 = [str "hello"])) :=
  ⟨by decide, chunk_text_coverage (str "hello") 4 (by decide)⟩

/-! ## Retrying Remote Invoker

`TranscriptSummarizer.query_api` / `generate_summary`
(`src/step02_transcript_summarizer.py` lines 105-218).  The identical retry
loop recurs in `LinkedInPostGenerator` (`src/step05_generate_linkedin_post.py`
lines 297-430) with the same constants.

Configuration constants (`src/step02_transcript_summarizer.py` lines 61-63
and the `chunk_size` default at line 101). -/

/-- Delay between requests in seconds (`self.request_delay = 2`). -/
def request_delay : Nat := 2

/-- Delay unit when retrying (`self.retry_delay = 60`). -/
def retry_delay : Nat := 60

/-- Maximum number of retries per chunk (`self.max_retries = 5`). -/
def max_retries : Nat := 5

/-- Default maximum segment size in characters (`chunk_size: int = 10000`). -/
def default_chunk_size : Nat := 10000

/-- What the external endpoint does on one `requests.post` call: an HTTP
response with a status code, error body text and (for 200) the list of choice
message contents of the parsed JSON, or a raised
`requests.exceptions.RequestException` with a message. -/
inductive CallOutcome where
  | response (code : Nat) (body : Str) (choices : List Str)
  | networkError (msg : Str)
deriving DecidableEq

/-- One `time.sleep` performed by the invoker, labelled by its cause:
the fixed wait inside the 429 branch of `query_api`, the unconditional
`finally` throttle of `query_api`, or the escalating backoff of the retry
loop in `generate_summary`. -/
inductive SleepEvent where
  | rateLimitWait (secs : Nat)
  | throttle (secs : Nat)
  | backoff (secs : Nat)
deriving DecidableEq

/-- `TranscriptSummarizer.query_api` (lines 105-137): classify the HTTP
status via the if/elif chain, raising `Exception(msg)` for non-200 statuses
and re-raising request exceptions; the `finally` clause always sleeps
`request_delay`, and the 429 branch first sleeps `retry_delay`.
Result: the raised message or the parsed JSON choices, with the sleeps
performed. -/
def query_api (o : CallOutcome) : Except Str (List Str) × List SleepEvent :=
  match o with
  | .response code body choices =>
    if code == 429 then
      (.error (str "Rate limit exceeded"),
        [.rateLimitWait retry_delay, .throttle request_delay])
    else if code == 401 then
      (.error (str "API authentication failed"), [.throttle request_delay])
    else if code == 400 then
      (.error (str "Bad request: " ++ body), [.throttle request_delay])
    else if code != 200 then
      (.error (str "API request failed with status code: " ++ natToStr code),
        [.throttle request_delay])
    else
      (.ok choices, [.throttle request_delay])
  | .networkError msg => (.error msg, [.throttle request_delay])

/-- The summary/takeaways record returned by `generate_summary`. -/
structure SummaryResult where
  summary : Str
  takeaways : Str
deriving DecidableEq

/-- Response parsing inside `generate_summary` (lines 184-200): split on
"Summary:"; when that label occurs, the text after its first occurrence is
split on "Key Takeaways:", the takeaways defaulting to the empty string;
when the label is absent, the whole response is the summary and the takeaways
are the sentinel "No specific takeaways extracted.". -/
def parse_summary_response (full_response : Str) : SummaryResult :=
  let parts := splitOnL (str "Summary:") full_response
  if 1 < parts.length then
    let content := pyStrip (parts.getD 1 [])
    let summary_parts := splitOnL (str "Key Takeaways:") content
    { summary := pyStrip (summary_parts.getD 0 [])
      takeaways :=
        if 1 < summary_parts.length then pyStrip (summary_parts.getD 1 [])
        else [] }
  else
    { summary := pyStrip full_response
      takeaways := str "No specific takeaways extracted." }

/-- One iteration body of the `generate_summary` try block (lines 176-202):
call `query_api`; on a 200 response require a non-empty `choices` list
(otherwise `Exception("Invalid response format from API")`), then parse the
stripped first choice content. -/
def attempt_result (o : CallOutcome) : Except Str SummaryResult :=
  match (query_api o).1 with
  | .ok choices =>
    match choices with
    | [] => .error (str "Invalid response format from API")
    | c :: _ => .ok (parse_summary_response (pyStrip c))
  | .error e => .error e

/-- How one `generate_summary` call terminates: a normal `return`, a raised
exception, or falling off the `while` loop (CPython returns `None`; possible
only when the loop condition fails at entry, never for `max_retries = 5`). -/
inductive SummaryOutcome where
  | returned (res : SummaryResult)
  | raised (msg : Str)
  | fellThrough
deriving DecidableEq

/-- Trace of one `generate_summary` call: how it ended, every sleep performed,
and the number of `query_api` calls made. -/
structure RunResult where
  outcome : SummaryOutcome
  sleeps : List SleepEvent
  attempts : Nat
deriving DecidableEq

/-- The `while retry_count < self.max_retries` loop of `generate_summary`
(lines 171-218), with `fuel = max_retries - retry_count` (so the loop
condition `retry_count < max_retries` is exactly `fuel > 0`, and the inner
`retry_count + 1 < max_retries` check is exactly `fuel - 1 > 0`).  On an
exception the retry counter advances; a message containing
"authentication failed" (lower-cased) re-raises at once; otherwise, while
retries remain, the loop sleeps `retry_delay * retry_count` and continues;
exhaustion raises "Max retries reached. Last error: " with the last error.
`oracle r` is what the endpoint does on the call made at `retry_count = r`. -/
def generate_summary_aux (oracle : Nat → CallOutcome) : Nat → Nat → RunResult
  | r, 0 => ⟨.fellThrough, [], r⟩
  | r, fuel + 1 =>
    let o := oracle r
    let q := (query_api o).2
    match attempt_result o with
    | .ok res => ⟨.returned res, q, r + 1⟩
    | .error msg =>
      if py_contains (pyLower msg) (str "authentication failed") then
        ⟨.raised msg, q, r + 1⟩
      else if 0 < fuel then
        let rest := generate_summary_aux oracle (r + 1) fuel
        ⟨rest.outcome, q ++ .backoff (retry_delay * (r + 1)) :: rest.sleeps,
          rest.attempts⟩
      else
        ⟨.raised (str "Max retries reached. Last error: " ++ msg), q, r + 1⟩

/-- `TranscriptSummarizer.generate_summary` for one segment, abstracted over
the endpoint oracle: the loop starts at `retry_count = 0`. -/
def generate_summary (oracle : Nat → CallOutcome) : RunResult :=
  generate_summary_aux oracle 0 max_retries

/-- Selects the escalating backoff sleeps of the retry loop, dropping the
fixed per-call sleeps of `query_api`. -/
def backoff_selector : SleepEvent → Option Nat
  | .backoff n => some n
  | _ => none

/-- The escalating backoff delays of a run, in order (the sleeps issued by
the retry loop itself, as distinct from the fixed per-call sleeps of
`query_api`). -/
def backoff_delays (rr : RunResult) : List Nat :=
  rr.sleeps.filterMap backoff_selector

/-- A call outcome the retry loop treats as transient: the attempt fails and
the error message does not contain "authentication failed". -/
def is_transient (o : CallOutcome) : Bool :=
  match attempt_result o with
  | .error msg => !py_contains (pyLower msg) (str "authentication failed")
  | .ok _ => false

/-- The error message of a failing attempt (the empty string on success). -/
def err_msg (o : CallOutcome) : Str :=
  match attempt_result o with
  | .error msg => msg
  | .ok _ => []

/-! ## Completion Ledger and driver (step02)

`TranscriptSummarizer.get_processed_files` / `get_transcript_files` /
`process_transcript` / `process_all_transcripts`
(`src/step02_transcript_summarizer.py` lines 70-99, 220-311).
Directory listings are lists of file names; folder paths are dropped (the
code joins and re-splits them without effect on the names). -/

/-- `get_processed_files` (lines 70-79): base names recovered from the output
folder listing by stripping from each `.txt` file everything from the last
`_part` on (`file.rsplit('_part', 1)[0]`).  The Python set is modelled as a
list queried only for membership. -/
def get_processed_files (output_files : List Str) : List Str :=
  (output_files.filter (fun f => py_endswith f (str ".txt"))).map
    (fun f => py_rsplit1_head f (str "_part"))

/-- `get_transcript_files` (lines 81-99): the input-folder `.txt` files whose
extension-stripped base name is not in `get_processed_files`. -/
def get_transcript_files (input_files output_files : List Str) : List Str :=
  let processed := get_processed_files output_files
  input_files.filter (fun f =>
    py_endswith f (str ".txt") && !processed.contains (splitext_base f))

/-- The per-segment output file name written by `process_transcript`
(lines 238-241): `base_part<i>.txt`. -/
def part_file (base : Str) (i : Nat) : Str :=
  base ++ str "_part" ++ natToStr i ++ str ".txt"

/-- The 1-based segment indices whose output file does not yet exist — the
per-part existence check of `process_transcript` (lines 237-245) applied to
each of `numChunks` segments. -/
def pending_parts (output_files : List Str) (base : Str) (numChunks : Nat) :
    List Nat :=
  ((List.range numChunks).map (· + 1)).filter
    (fun i => !output_files.contains (part_file base i))

/-- Result of one `process_transcript` call: the output file names written by
this call in order, the new global `query_api` call count, and the exception
propagating out of the function, if any. -/
structure ProcResult where
  written : List Str
  calls : Nat
  exn : Option Str
deriving DecidableEq

/-- The `for i, chunk in enumerate(chunks, 1)` loop of `process_transcript`
(lines 235-268): skip a segment whose output file already exists (among the
pre-existing files `fs` or the files written earlier in this call); otherwise
run `generate_summary` on the oracle shifted by the global call counter.  A
raised message containing "API quota exceeded" re-raises out of the loop; any
other error is logged and the loop continues; a normal return writes the
output file.  (`fellThrough` would make `result['summary']` raise a
`TypeError`, which the same handler catches and continues; it is unreachable
for `max_retries = 5`.) -/
def process_chunks (oracle : Nat → CallOutcome) (fs : List Str) (base : Str) :
    List (Nat × Str) → Nat → List Str → ProcResult
  | [], calls, acc => ⟨acc, calls, none⟩
  | (i, _chunk) :: rest, calls, acc =>
    let fname := part_file base i
    if (fs ++ acc).contains fname then
      process_chunks oracle fs base rest calls acc
    else
      let r := generate_summary (fun a => oracle (calls + a))
      match r.outcome with
      | .returned _ =>
        process_chunks oracle fs base rest (calls + r.attempts) (acc ++ [fname])
      | .raised msg =>
        if py_contains msg (str "API quota exceeded") then
          ⟨acc, calls + r.attempts, some msg⟩
        else
          process_chunks oracle fs base rest (calls + r.attempts) acc
      | .fellThrough =>
        process_chunks oracle fs base rest (calls + r.attempts) acc

/-- `process_transcript` (lines 220-272) for one source: split the content
with the default chunk size and run the segment loop starting from an empty
list of files written by this call. -/
def process_transcript (oracle : Nat → CallOutcome) (fs : List Str)
    (calls : Nat) (base : Str) (content : Str) : ProcResult :=
  process_chunks oracle fs base
    (List.enumFrom 1 (chunk_text content default_chunk_size)) calls []

/-- The `for transcript_file in transcript_files` loop of
`process_all_transcripts` (lines 294-311): process each selected source in
order, accumulating written files into the directory state; an exception
whose message contains "API quota exceeded" breaks the loop, any other
exception is logged and the loop continues. -/
def process_all_aux (oracle : Nat → CallOutcome) (contents : Str → Str) :
    List Str → List Str → Nat → List Str × Nat
  | [], fs, calls => (fs, calls)
  | f :: rest, fs, calls =>
    let r := process_transcript oracle fs calls (splitext_base f) (contents f)
    let fs2 := fs ++ r.written
    match r.exn with
    | some msg =>
      if py_contains msg (str "API quota exceeded") then (fs2, r.calls)
      else process_all_aux oracle contents rest fs2 r.calls
    | none => process_all_aux oracle contents rest fs2 r.calls

/-- `process_all_transcripts` (lines 274-319): select the sources via the
Completion Ledger, then run the per-source loop.  `contents f` is what
reading input file `f` yields; `fs0` is the output-folder listing at run
start; the result is the final output-folder listing and the total number of
remote calls made. -/
def process_all_transcripts (oracle : Nat → CallOutcome) (contents : Str → Str)
    (input_files fs0 : List Str) : List Str × Nat :=
  process_all_aux oracle contents (get_transcript_files input_files fs0) fs0 0

/-! ## Post generator (step05)

`LinkedInPostGenerator` (`src/step05_generate_linkedin_post.py`): the group
skip of `get_unprocessed_file_groups` (lines 190-216), the merged-post writer
`generate_merged_final_post` (lines 612-650), and the response parser
`parse_linkedin_post` (lines 432-476). -/

/-- The merged post output name (line 645). -/
def merged_post_name : Str := str "merged-final-post.md"

/-- `get_all_generated_posts` (lines 552-577): the `.md` files of the output
folder other than the merged post itself (the `sorted` listing order does not
affect the count or membership used here). -/
def get_all_generated_posts (fs : List Str) : List Str :=
  fs.filter (fun f => py_endswith f (str ".md") && f ≠ merged_post_name)

/-- The file names written by `generate_merged_final_post` (lines 612-650):
nothing when at most one post exists, otherwise `merged-final-post.md`,
written unconditionally (line 646 opens the file in mode `w` with no
existence check). -/
def generate_merged_final_post_writes (fs : List Str) : List Str :=
  if (get_all_generated_posts fs).length ≤ 1 then [] else [merged_post_name]

/-- The base names considered already processed by
`get_unprocessed_file_groups` (lines 197-203): extension-stripped names of
the output-folder `.md` files. -/
def step05_processed (fs : List Str) : List Str :=
  (fs.filter (fun f => py_endswith f (str ".md"))).map splitext_base

/-- `get_unprocessed_file_groups` (lines 205-216) restricted to the group
base names: keep the groups whose base is not in the processed set. -/
def step05_unprocessed_groups (groups : List Str) (fs : List Str) :
    List Str :=
  groups.filter (fun b => !(step05_processed fs).contains b)

/-- Python values as produced by `json.loads` (objects keep key order, as
CPython dicts do). -/
inductive PyVal where
  | vnull
  | vbool (b : Bool)
  | vnum (n : Int)
  | vstr (s : Str)
  | vlist (l : List PyVal)
  | vdict (m : List (Str × PyVal))

/-- The five fields `parse_linkedin_post` requires (line 449). -/
def required_fields : List Str :=
  [str "PostTitle", str "Categories", str "CatchyIntro", str "PostContent",
    str "EndingThoughtsAndQuestion"]

/-- CPython equality of a string probe against a JSON value: equal exactly to
the same string (`str` never equals a non-`str` value in CPython). -/
def is_vstr_eq (f : Str) (v : PyVal) : Bool :=
  match v with
  | .vstr s => s == f
  | _ => false

/-- CPython `key in dict` on a JSON object. -/
def dict_contains (m : List (Str × PyVal)) (k : Str) : Bool :=
  m.any (fun p => p.1 == k)

/-- CPython `d[k] = v` for a key not yet present: insertion appends at the
end of the key order. -/
def dict_insert (m : List (Str × PyVal)) (k : Str) (v : PyVal) :
    List (Str × PyVal) :=
  m ++ [(k, v)]

/-- The `for field in required_fields: if field not in sections:
sections[field] = ''` loop (lines 450-452), by CPython semantics of `in` and
item assignment on each possible `json.loads` result: on a dict, absent
fields are filled with the empty string; on a string, membership is substring
search and assignment raises `TypeError`; on a list, membership is element
equality and assignment raises `TypeError`; on any other value, `in` itself
raises `TypeError`.  `TypeError` is not `json.JSONDecodeError`, so it
propagates out of `parse_linkedin_post`. -/
def ensure_required_fields (v : PyVal) : Except Str PyVal :=
  match v with
  | .vdict m =>
    .ok (.vdict (required_fields.foldl
      (fun acc f => if dict_contains acc f then acc else dict_insert acc f (.vstr []))
      m))
  | .vstr s =>
    if required_fields.all (fun f => py_contains s f) then .ok (.vstr s)
    else .error (str "TypeError: str does not support item assignment")
  | .vlist l =>
    if required_fields.all (fun f => l.any (is_vstr_eq f)) then .ok (.vlist l)
    else .error (str "TypeError: list indices must be integers")
  | _ => .error (str "TypeError: argument is not iterable")

/-- The fixed placeholder returned when every parse fails (lines 470-476). -/
def error_placeholder : PyVal :=
  .vdict [(str "PostTitle", .vstr (str "Error parsing response")),
    (str "Categories", .vlist [.vstr (str "general")]),
    (str "CatchyIntro", .vstr []),
    (str "PostContent", .vstr []),
    (str "EndingThoughtsAndQuestion", .vstr [])]

/-- `LinkedInPostGenerator.parse_linkedin_post` (lines 432-476), abstracted
over the two `json` collaborator calls: `direct` is the result of
`json.loads(response_text.strip())` (`none` meaning `JSONDecodeError`), and
`fence` describes the markdown fallback — `none` when the regex finds no
```json fence, `some none` when the fenced text fails to parse, and
`some (some v)` when it parses to `v`.  A successful direct parse runs the
required-field loop and returns; a successful fence parse is returned as-is,
with no field filling (line 465); otherwise the placeholder is returned. -/
def parse_linkedin_post (direct : Option PyVal) (fence : Option (Option PyVal)) :
    Except Str PyVal :=
  match direct with
  | some v => ensure_required_fields v
  | none =>
    match fence with
    | some (some v) => .ok v
    | _ => .ok error_placeholder

/-! ## Helper lemmas about the retry loop -/

/-- The sleeps of one `query_api` call contain no loop backoff. -/
theorem query_api_no_backoff (o : CallOutcome) :
    (query_api o).2.filterMap backoff_selector = [] := by
  rcases o with ⟨code, body, choices⟩ | msg
  · simp only [query_api]
    split_ifs <;> rfl
  · rfl

/-- A transient outcome is a failing attempt whose message does not contain
"authentication failed" after lower-casing. -/
theorem is_transient_spec (o : CallOutcome) (h : is_transient o = true) :
    attempt_result o = .error (err_msg o) ∧
    py_contains (pyLower (err_msg o)) (str "authentication failed") = false := by
  unfold is_transient err_msg at *
  cases hres : attempt_result o with
  | ok res => simp [hres] at h
  | error msg =>
    simp [hres] at h ⊢
    exact h

/-- When all five attempts fail transiently, the loop makes exactly
`max_retries` calls, sleeps the escalating backoff after each of the first
four failures, and raises the max-retries message around the last error. -/
theorem generate_summary_transient_run (oracle : Nat → CallOutcome)
    (htrans : ∀ a, a < max_retries → is_transient (oracle a) = true) :
    (generate_summary oracle).outcome
      = .raised (str "Max retries reached. Last error: " ++ err_msg (oracle 4))
    ∧ (generate_summary oracle).attempts = max_retries
    ∧ backoff_delays (generate_summary oracle)
      = [retry_delay * 1, retry_delay * 2, retry_delay * 3, retry_delay * 4] := by
  obtain ⟨e0, a0⟩ := is_transient_spec _ (htrans 0 (by decide))
  obtain ⟨e1, a1⟩ := is_transient_spec _ (htrans 1 (by decide))
  obtain ⟨e2, a2⟩ := is_transient_spec _ (htrans 2 (by decide))
  obtain ⟨e3, a3⟩ := is_transient_spec _ (htrans 3 (by decide))
  obtain ⟨e4, a4⟩ := is_transient_spec _ (htrans 4 (by decide))
  refine ⟨?_, ?_, ?_⟩ <;>
    simp [generate_summary, generate_summary_aux, max_retries,
      e0, a0, e1, a1, e2, a2, e3, a3, e4, a4, backoff_delays,
      List.filterMap_append, query_api_no_backoff, backoff_selector, retry_delay]

/-- Shifting the call oracle by the initial call counter 0 is the identity. -/
theorem oracle_shift_zero (oracle : Nat → CallOutcome) :
    (fun a => oracle (0 + a)) = oracle := by
  funext a
  simp

/-- When every call gets an HTTP 401 response, `generate_summary` makes
exactly one call, performs no backoff sleep, and raises the authentication
message at once. -/
theorem generate_summary_auth (oracle : Nat → CallOutcome) (body : Str)
    (choices : List Str) (h : ∀ a, oracle a = .response 401 body choices) :
    generate_summary oracle
      = ⟨.raised (str "API authentication failed"), [.throttle request_delay], 1⟩ := by
  have h0 := h 0
  have hc : py_contains (pyLower (str "API authentication failed"))
      (str "authentication failed") = true := by decide
  simp [generate_summary, generate_summary_aux, max_retries, h0,
    attempt_result, query_api, hc]

/-- The segment loop never writes a file name that was already present when
`process_transcript` started. -/
theorem process_chunks_writes_fresh (oracle : Nat → CallOutcome) (fs : List Str)
    (base : Str) :
    ∀ (l : List (Nat × Str)) (calls : Nat) (acc : List Str),
    (∀ g ∈ acc, g ∉ fs) →
    ∀ f ∈ (process_chunks oracle fs base l calls acc).written, f ∉ fs := by
  intro l
  induction l with
  | nil =>
    intro calls acc hacc f hf
    exact hacc f hf
  | cons p rest ih =>
    intro calls acc hacc f hf
    obtain ⟨i, c⟩ := p
    simp only [process_chunks] at hf
    split at hf
    · exact ih calls acc hacc f hf
    · rename_i hcont
      have hnotin : part_file base i ∉ fs := by
        intro hmem
        exact hcont (by simp [List.contains, List.elem_iff, hmem])
      split at hf
      · refine ih _ _ ?_ f hf
        intro g hg
        rcases List.mem_append.mp hg with hg | hg
        · exact hacc g hg
        · simp only [List.mem_singleton] at hg
          subst hg
          exact hnotin
      · split at hf
        · exact hacc f hf
        · exact ih _ _ hacc f hf
      · exact ih _ _ hacc f hf

/-! ## Claim theorems -/

/-- C1: the claim asserts per-segment resumption: with output files for
segments 1 and 3 of a 3-segment source only, a rerun selects exactly
segment 2 and the source is not skipped wholesale.  The code evaluation at
that input shows the opposite: a 25000-character source does split into 3
segments, the per-segment existence check alone would select exactly
segment 2, but `get_transcript_files` strips `_part` suffixes and treats the
whole source `talk` as processed, so the driver selects no source and makes
zero remote calls, leaving segment 2 unprocessed.  The per-segment skip of
`process_transcript` (lines 237-245) is unreachable from the driver,
contradicting the docstring of `get_transcript_files` ("files that have not
been processed yet"). -/
theorem ledger_skips_partially_completed_source :
    (chunk_text (List.replicate 25000 'a') default_chunk_size).length = 3
    ∧ pending_parts [str "talk_part1.txt", str "talk_part3.txt"]
        (str "talk") 3 = [2]
    ∧ get_transcript_files [str "talk.txt"]
        [str "talk_part1.txt", str "talk_part3.txt"] = []
    ∧ process_all_transcripts (fun _ => .response 200 [] [str "Summary: s"])
        (fun _ => List.replicate 25000 'a') [str "talk.txt"]
        [str "talk_part1.txt", str "talk_part3.txt"]
      = ([str "talk_part1.txt", str "talk_part3.txt"], 0) := by
  refine ⟨?_, by decide, by decide, by decide⟩
  rw [chunk_text_count, List.length_replicate]
  decide

/-- C2: the claim asserts that a quota-exhaustion signal abandons the whole
run with no retries.  The abort machinery of the code only fires on an
exception message containing "API quota exceeded", which no raise site in
the repository produces: an HTTP 402 becomes "API request failed with status
code: 402", is retried to exhaustion, and the max-retries message does not
contain the quota marker either, so with two pending one-segment sources the
driver makes 5 calls for the first source and then 5 more for the second —
10 calls instead of the claimed immediate abandonment. -/
theorem quota_exhaustion_not_aborting :
    (generate_summary (fun _ => .response 402 [] [])).attempts = max_retries
    ∧ (generate_summary (fun _ => .response 402 [] [])).outcome
      = .raised (str "Max retries reached. Last error: API request failed with status code: 402")
    ∧ py_contains
        (str "Max retries reached. Last error: API request failed with status code: 402")
        (str "API quota exceeded") = false
    ∧ process_all_transcripts (fun _ => .response 402 [] []) (fun _ => str "x")
        [str "a.txt", str "b.txt"] [] = ([], 10) := by
  refine ⟨by decide, by decide, by decide, by decide⟩

/-- C4: Backoff monotonicity and budget: under consecutive transient
failures the escalating backoff sleep before retry `n` is
`retry_delay * n`, the delays strictly increase, exactly `max_retries = 5`
calls are made, the last observed error is surfaced in the max-retries
message, and the failure is terminal for that segment only — the segment
loop catches it and finishes without an exception.  (The fixed per-call
sleeps of `query_api` — the proactive throttle and the fixed wait in the 429
branch — are recorded separately and are not part of the escalating
backoff.) -/
theorem generate_summary_backoff (oracle : Nat → CallOutcome)
    (htrans : ∀ a, a < max_retries → is_transient (oracle a) = true)
    (hq : py_contains
      (str "Max retries reached. Last error: " ++ err_msg (oracle 4))
      (str "API quota exceeded") = false)
    (base c : Str) :
    backoff_delays (generate_summary oracle)
      = [retry_delay * 1, retry_delay * 2, retry_delay * 3, retry_delay * 4]
    ∧ List.Chain' (· < ·) (backoff_delays (generate_summary oracle))
    ∧ (generate_summary oracle).attempts = max_retries
    ∧ (generate_summary oracle).outcome
      = .raised (str "Max retries reached. Last error: " ++ err_msg (oracle 4))
    ∧ (process_chunks oracle [] base [(1, c)] 0 []).exn = none := by
  obtain ⟨ho, ha, hb⟩ := generate_summary_transient_run oracle htrans
  refine ⟨hb, ?_, ha, ho, ?_⟩
  · rw [hb]
    refine List.chain'_cons.mpr ⟨by decide, List.chain'_cons.mpr ⟨by decide,
      List.chain'_cons.mpr ⟨by decide, List.chain'_singleton _⟩⟩⟩
  · simp only [process_chunks, oracle_shift_zero, List.nil_append, ho, hq,
      List.append_nil]
    simp [process_chunks]

/-- C4 witness: a run in which every call is rate limited (HTTP 429). -/
theorem generate_summary_backoff_witness :
    ((∀ a, a < max_retries →
      is_transient ((fun _ => CallOutcome.response 429 [] []) a) = true)
    ∧ py_contains
      (str "Max retries reached. Last error: "
        ++ err_msg ((fun _ => CallOutcome.response 429 [] []) 4))
      (str "API quota exceeded") = false)
    ∧ (backoff_delays (generate_summary (fun _ => CallOutcome.response 429 [] []))
      = [retry_delay * 1, retry_delay * 2, retry_delay * 3, retry_delay * 4]
    ∧ List.Chain' (· < ·)
        (backoff_delays (generate_summary (fun _ => CallOutcome.response 429 [] [])))
    ∧ (generate_summary (fun _ => CallOutcome.response 429 [] [])).attempts = max_retries
    ∧ (generate_summary (fun _ => CallOutcome.response 429 [] [])).outcome
      = .raised (str "Max retries reached. Last error: "
          ++ err_msg ((fun _ => CallOutcome.response 429 [] []) 4))
    ∧ (process_chunks (fun _ => CallOutcome.response 429 [] []) [] (str "talk")
        [(1, str "x")] 0 []).exn = none) :=
  ⟨⟨by decide, by decide⟩,
    generate_summary_backoff (fun _ => CallOutcome.response 429 [] [])
      (by decide) (by decide) (str "talk") (str "x")⟩

/-- C5 counterexample: the response "Summary: hello" does not contain the
takeaways label, yet the parsed result records an empty takeaways field, not
the not-found sentinel — refuting the claim that a missing takeaways label
always yields the sentinel. -/
theorem takeaways_empty_counterexample :
    py_contains (str "Summary: hello") (str "Key Takeaways:") = false
    ∧ (parse_summary_response (str "Summary: hello")).takeaways = []
    ∧ (parse_summary_response (str "Summary: hello")).summary = str "hello" := by
  decide

/-- C5 (amended): the degradation path with the not-found sentinel applies to
responses that lack the summary label "Summary:": there the whole stripped
response becomes the summary and the takeaways field is the non-empty
sentinel.  (When "Summary:" is present but "Key Takeaways:" is absent, the
takeaways field is the empty string instead.) -/
theorem no_summary_label_sentinel (s : Str)
    (h : py_contains s (str "Summary:") = false) :
    parse_summary_response s
      = ⟨pyStrip s, str "No specific takeaways extracted."⟩
    ∧ (parse_summary_response s).takeaways ≠ [] := by
  have h2 : ¬ 1 < (splitOnL (str "Summary:") s).length := by
    simpa [py_contains] using h
  have hmain : parse_summary_response s
      = ⟨pyStrip s, str "No specific takeaways extracted."⟩ := by
    simp [parse_summary_response, h2]
  refine ⟨hmain, ?_⟩
  rw [hmain]
  show str "No specific takeaways extracted." ≠ []
  decide

/-- C5 witness: a response with no "Summary:" label at all. -/
theorem no_summary_label_sentinel_witness :
    py_contains (str "hello") (str "Summary:") = false
    ∧ (parse_summary_response (str "hello")
        = ⟨pyStrip (str "hello"), str "No specific takeaways extracted."⟩
    ∧ (parse_summary_response (str "hello")).takeaways ≠ []) :=
  ⟨by decide, no_summary_label_sentinel (str "hello") (by decide)⟩

/-- C6 counterexample: with two individual posts present, the merged-post
writer targets `merged-final-post.md` even though that output file of the
same stage already exists — the stage rewrites an existing output on rerun,
refuting the claim that every operation skips existing files or writes only
files that do not yet exist. -/
theorem merged_post_overwrite_counterexample :
    merged_post_name ∈ [str "a.md", str "b.md", merged_post_name]
    ∧ generate_merged_final_post_writes [str "a.md", str "b.md", merged_post_name]
      = [merged_post_name] := by
  decide

/-- C6 (amended): per-segment outputs of the summarizer stage are written
only when the target file does not yet exist, and the post generator skips a
source group whose output `.md` exists; but `generate_merged_final_post`
writes `merged-final-post.md` exactly when at least two individual posts
exist, regardless of whether that file already exists (rewriting it on every
such rerun). -/
theorem outputs_immutable_amended (oracle : Nat → CallOutcome) (fs : List Str)
    (calls : Nat) (base content : Str) (groups : List Str) (fs2 : List Str)
    (b : Str)
    (hend : py_endswith (b ++ str ".md") (str ".md") = true)
    (hsplit : splitext_base (b ++ str ".md") = b)
    (hgrp : b ∈ step05_unprocessed_groups groups fs2) :
    (∀ f ∈ (process_transcript oracle fs calls base content).written, f ∉ fs)
    ∧ (b ++ str ".md") ∉ fs2
    ∧ (merged_post_name ∈ generate_merged_final_post_writes fs2
        ↔ 1 < (get_all_generated_posts fs2).length) := by
  refine ⟨?_, ?_, ?_⟩
  · exact process_chunks_writes_fresh oracle fs base _ calls [] (by simp)
  · intro hmem
    have hfil : (b ++ str ".md") ∈ fs2.filter (fun f => py_endswith f (str ".md")) :=
      List.mem_filter.mpr ⟨hmem, hend⟩
    have hproc : b ∈ step05_processed fs2 := by
      have hmap := List.mem_map_of_mem splitext_base hfil
      rw [hsplit] at hmap
      exact hmap
    simp only [step05_unprocessed_groups, List.mem_filter] at hgrp
    obtain ⟨-, hno⟩ := hgrp
    simp [List.contains, List.elem_iff, hproc] at hno
  · unfold generate_merged_final_post_writes
    by_cases hlen : (get_all_generated_posts fs2).length ≤ 1
    · rw [if_pos hlen]
      simp only [List.not_mem_nil, false_iff]
      omega
    · rw [if_neg hlen]
      simp only [List.mem_singleton, true_iff]
      omega

/-- C6 witness: a fresh group `g`, a summarizer run against a directory that
already holds `t_part1.txt`, and an output folder with a single post. -/
theorem outputs_immutable_amended_witness :
    (py_endswith (str "g" ++ str ".md") (str ".md") = true
    ∧ splitext_base (str "g" ++ str ".md") = str "g"
    ∧ str "g" ∈ step05_unprocessed_groups [str "g"] [str "other.md"])
    ∧ ((∀ f ∈ (process_transcript (fun _ => CallOutcome.response 200 [] [str "s"])
          [str "t_part1.txt"] 0 (str "t") (str "hi")).written,
          f ∉ [str "t_part1.txt"])
    ∧ (str "g" ++ str ".md") ∉ [str "other.md"]
    ∧ (merged_post_name ∈ generate_merged_final_post_writes [str "other.md"]
        ↔ 1 < (get_all_generated_posts [str "other.md"]).length)) :=
  ⟨⟨by decide, by decide, by decide⟩,
    outputs_immutable_amended (fun _ => CallOutcome.response 200 [] [str "s"])
      [str "t_part1.txt"] 0 (str "t") (str "hi") [str "g"] [str "other.md"]
      (str "g") (by decide) (by decide) (by decide)⟩

/-- C7 counterexample: with every call answered by HTTP 401, the first
attempt raises after exactly one call, yet the run is not aborted: the
driver continues through both pending sources, making one further call for
the second source (2 calls in total) and finishing normally — refuting the
claim that the pipeline run is aborted on authentication failure. -/
theorem auth_failure_continues_counterexample :
    (generate_summary (fun _ => CallOutcome.response 401 [] [])).attempts = 1
    ∧ process_all_transcripts (fun _ => CallOutcome.response 401 [] [])
        (fun _ => str "x") [str "a.txt", str "b.txt"] [] = ([], 2) := by
  exact ⟨by decide, by decide⟩

/-- C7 (amended): an HTTP 401 on the first attempt produces zero retries and
zero backoff sleeps — `generate_summary` raises at once after one call — but
the segment loop of `process_transcript` catches the error and continues
with the remaining segments (both segments of a two-segment source are
attempted, one call each, and no exception leaves the loop); the run is not
aborted. -/
theorem auth_failure_short_circuit_amended (oracle : Nat → CallOutcome)
    (body : Str) (choices : List Str) (base c1 c2 : Str)
    (h : ∀ a, oracle a = .response 401 body choices) :
    (generate_summary oracle).outcome = .raised (str "API authentication failed")
    ∧ (generate_summary oracle).attempts = 1
    ∧ backoff_delays (generate_summary oracle) = []
    ∧ process_chunks oracle [] base [(1, c1), (2, c2)] 0 []
      = ⟨[], 2, none⟩ := by
  have hg := generate_summary_auth oracle body choices h
  have hg1 := generate_summary_auth (fun a => oracle (0 + a)) body choices
    (fun a => h (0 + a))
  have hg2 := generate_summary_auth (fun a => oracle (1 + a)) body choices
    (fun a => h (1 + a))
  have hqf : py_contains (str "API authentication failed")
      (str "API quota exceeded") = false := by decide
  refine ⟨by rw [hg], by rw [hg], by rw [hg]; rfl, ?_⟩
  simp [process_chunks, hg, hg1, hg2, hqf]

/-- C7 witness: the all-401 oracle with a two-segment source. -/
theorem auth_failure_short_circuit_witness :
    (∀ a : Nat, (fun _ => CallOutcome.response 401 [] ([] : List Str)) a
        = CallOutcome.response 401 [] [])
    ∧ ((generate_summary (fun _ => CallOutcome.response 401 [] [])).outcome
        = .raised (str "API authentication failed")
    ∧ (generate_summary (fun _ => CallOutcome.response 401 [] [])).attempts = 1
    ∧ backoff_delays (generate_summary (fun _ => CallOutcome.response 401 [] [])) = []
    ∧ process_chunks (fun _ => CallOutcome.response 401 [] []) [] (str "t")
        [(1, str "x"), (2, str "y")] 0 [] = ⟨[], 2, none⟩) :=
  ⟨fun _ => rfl,
    auth_failure_short_circuit_amended _ [] [] (str "t") (str "x") (str "y")
      (fun _ => rfl)⟩

/-- C8 counterexample: with every call answered by HTTP 400, the invoker
does not fail fast: it makes all five attempts, sleeps four escalating
backoffs, and only then surfaces the last bad-request error — refuting the
claim that an HTTP 400 is raised without any retry attempt. -/
theorem bad_request_retried_counterexample :
    (generate_summary (fun _ => CallOutcome.response 400 (str "oops") [])).attempts
      = max_retries
    ∧ backoff_delays
        (generate_summary (fun _ => CallOutcome.response 400 (str "oops") [])) ≠ []
    ∧ (generate_summary (fun _ => CallOutcome.response 400 (str "oops") [])).outcome
      = .raised (str "Max retries reached. Last error: Bad request: oops") := by
  decide

/-- C8 (amended): an HTTP 400 makes `query_api` raise "Bad request: ...",
but the retry loop classifies it like any other non-authentication failure:
it retries with escalating backoff up to `max_retries = 5` attempts and only
then surfaces the bad-request message as the last error. -/
theorem bad_request_retried_amended (oracle : Nat → CallOutcome) (body : Str)
    (h : ∀ a, a < max_retries → oracle a = .response 400 body [])
    (hb : py_contains (pyLower (str "Bad request: " ++ body))
      (str "authentication failed") = false) :
    (generate_summary oracle).attempts = max_retries
    ∧ backoff_delays (generate_summary oracle)
      = [retry_delay * 1, retry_delay * 2, retry_delay * 3, retry_delay * 4]
    ∧ (generate_summary oracle).outcome
      = .raised (str "Max retries reached. Last error: "
          ++ (str "Bad request: " ++ body)) := by
  have hmsg : ∀ a, a < max_retries →
      attempt_result (oracle a) = .error (str "Bad request: " ++ body) := by
    intro a ha
    rw [h a ha]
    simp [attempt_result, query_api]
  have htrans : ∀ a, a < max_retries → is_transient (oracle a) = true := by
    intro a ha
    unfold is_transient
    rw [hmsg a ha]
    simp [hb]
  obtain ⟨ho, ha2, hb2⟩ := generate_summary_transient_run oracle htrans
  have he4 : err_msg (oracle 4) = str "Bad request: " ++ body := by
    unfold err_msg
    rw [hmsg 4 (by decide)]
  exact ⟨ha2, hb2, by rw [ho, he4]⟩

/-- C8 witness: the all-400 oracle with body "oops". -/
theorem bad_request_retried_witness :
    ((∀ a, a < max_retries →
      (fun _ => CallOutcome.response 400 (str "oops") ([] : List Str)) a
        = CallOutcome.response 400 (str "oops") [])
    ∧ py_contains (pyLower (str "Bad request: " ++ str "oops"))
        (str "authentication failed") = false)
    ∧ ((generate_summary
        (fun _ => CallOutcome.response 400 (str "oops") [])).attempts = max_retries
    ∧ backoff_delays
        (generate_summary (fun _ => CallOutcome.response 400 (str "oops") []))
      = [retry_delay * 1, retry_delay * 2, retry_delay * 3, retry_delay * 4]
    ∧ (generate_summary (fun _ => CallOutcome.response 400 (str "oops") [])).outcome
      = .raised (str "Max retries reached. Last error: "
          ++ (str "Bad request: " ++ str "oops"))) :=
  ⟨⟨fun _ _ => rfl, by decide⟩,
    bad_request_retried_amended _ (str "oops") (fun _ _ => rfl) (by decide)⟩

/-- Membership in a dict after inserting one fresh binding: the old keys and
the inserted one. -/
theorem dict_contains_insert (m : List (Str × PyVal)) (g k : Str) (v : PyVal) :
    dict_contains (dict_insert m g v) k = (dict_contains m k || (g == k)) := by
  simp only [dict_contains, dict_insert, List.any_append, List.any_cons,
    List.any_nil, Bool.or_false]

/-- The required-field fill loop preserves keys already present. -/
theorem dict_fill_preserves (fields : List Str) :
    ∀ (m : List (Str × PyVal)) (k : Str), dict_contains m k = true →
    dict_contains (fields.foldl
      (fun acc f => if dict_contains acc f then acc else dict_insert acc f (.vstr []))
      m) k = true := by
  induction fields with
  | nil =>
    intro m k hk
    exact hk
  | cons g rest ih =>
    intro m k hk
    simp only [List.foldl_cons]
    apply ih
    by_cases hg : dict_contains m g = true
    · rw [if_pos hg]
      exact hk
    · rw [if_neg hg, dict_contains_insert, hk]
      rfl

/-- After the fill loop every listed field is present. -/
theorem dict_fill_mem (fields : List Str) :
    ∀ (m : List (Str × PyVal)), ∀ f ∈ fields,
    dict_contains (fields.foldl
      (fun acc f => if dict_contains acc f then acc else dict_insert acc f (.vstr []))
      m) f = true := by
  induction fields with
  | nil =>
    intro m f hf
    cases hf
  | cons g rest ih =>
    intro m f hf
    simp only [List.foldl_cons]
    rcases List.mem_cons.mp hf with rfl | hf
    · apply dict_fill_preserves
      by_cases hg : dict_contains m f = true
      · rw [if_pos hg]
        exact hg
      · rw [if_neg hg, dict_contains_insert, beq_self_eq_true, Bool.or_true]
    · exact ih _ f hf

/-- C10 counterexample: the response text "42" parses as valid JSON to the
integer 42 (no `JSONDecodeError`), and the required-field membership test on
an integer raises `TypeError`, which `parse_linkedin_post` does not catch —
refuting the claim that it returns a dictionary and never raises for every
input string. -/
theorem parse_linkedin_post_nondict_counterexample :
    parse_linkedin_post (some (.vnum 42)) none
      = .error (str "TypeError: argument is not iterable") := rfl

/-- C10 (amended): `parse_linkedin_post` returns without raising whenever
direct JSON parsing yields an object or fails altogether: an object is
returned with all five required fields present (absent ones filled with the
empty string); on a direct parse failure a fenced JSON value is returned
as-is (with no field filling) and, failing that, the fixed placeholder with
PostTitle "Error parsing response" is returned.  Only a direct parse to a
JSON non-object (for instance "42") escapes with a `TypeError`. -/
theorem parse_linkedin_post_amended (m : List (Str × PyVal))
    (fence : Option (Option PyVal)) (v : PyVal) :
    (∃ m2, parse_linkedin_post (some (.vdict m)) fence = .ok (.vdict m2)
      ∧ ∀ f ∈ required_fields, dict_contains m2 f = true)
    ∧ parse_linkedin_post none (some (some v)) = .ok v
    ∧ parse_linkedin_post none (some none) = .ok error_placeholder
    ∧ parse_linkedin_post none none = .ok error_placeholder := by
  refine ⟨⟨_, rfl, ?_⟩, rfl, rfl, rfl⟩
  intro f hf
  exact dict_fill_mem required_fields m f hf
